import Mathlib

/-!
Shallow embedding of the controller layer of jackpot51/forecast
(src/src/app.rs): the application state (`App`), the message type
(`Message`), the transition function (`update`) and the startup function
(`init`), together with the result-mapping closures that convert the
outcomes of asynchronous effects back into messages.

Conventions of the embedding:
- Asynchronous `Command::perform` calls, the synchronous config write in
  `save_config`, the theme write in `save_theme` and the window-close
  command are represented as elements of the `Effect` type collected in a
  list; the state-transition result is an `Outcome`, which is either a new
  state with its effect list or a `panic` (a Rust `expect` failure or an
  out-of-bounds index), which aborts the process.
- `VecDeque<DialogPage>` is a `List` whose head is the front.
- Rust `f64` parsing of the stored coordinate strings is modelled by
  `parseF64 : String -> Option Rat` (see its doc comment); only success or
  failure of the parse and which string was parsed matter to the claims.
- Presentation-only pieces (nav-bar model, localized label vectors,
  widget ids, window titles) carry no transition-relevant state and are
  omitted from `App`; `core.window.show_context` is kept as the Boolean
  `show_context` since `ToggleContextPage` mutates it.
-/

namespace Forecast

/-- Modelled from the spec: temperature units enum from `src/app/config.rs`
(module of this repository not present under src/); spec section 3 lists
`units: Fahrenheit|Celsius`. -/
inductive Units where
  | Fahrenheit
  | Celsius
deriving DecidableEq, Repr

/-- Modelled from the spec: time format enum from `src/app/config.rs`;
spec section 3 lists `time_format: Twelve|TwentyFour`. -/
inductive TimeFmt where
  | TwelveHr
  | TwentyFourHr
deriving DecidableEq, Repr

/-- Modelled from the spec: application theme enum from `src/app/config.rs`;
spec section 3 lists `theme: Light|Dark|System`. -/
inductive AppTheme where
  | Light
  | Dark
  | System
deriving DecidableEq, Repr

/-- Modelled from the spec: the versioned settings record `WeatherConfig`
from `src/app/config.rs`; spec section 3 lists exactly these fields
(location name, latitude and longitude stored as optional strings). -/
structure WeatherConfig where
  units : Units
  timefmt : TimeFmt
  app_theme : AppTheme
  location : Option String
  latitude : Option String
  longitude : Option String
deriving DecidableEq, Repr

/-- Modelled from the spec: a geocoding candidate from
`src/model/location.rs`; spec section 6 gives `{display_name, lat, lon}`
with string coordinates parsed to floating point only at weather-fetch
time. -/
structure Location where
  display_name : String
  lat : String
  lon : String
deriving DecidableEq, Repr

/-- Modelled from the spec: the opaque weather snapshot from
`src/model/weather.rs`; it is replaced wholesale on successful fetch and
never inspected by the transition function, so its contents are abstracted
to a tag. -/
structure WeatherData where
  tag : Nat
deriving DecidableEq, Repr

/-- Modelled from the spec: the keyboard modifier set
(`cosmic::iced::keyboard::Modifiers`), a bit set; abstracted to `Nat`. -/
abbrev Modifiers := Nat

/-- Modelled from the spec: a keyboard key (`cosmic::iced::keyboard::Key`);
abstracted to its name. -/
abbrev KeyCode := String

/-- `ContextPage` from src/src/app.rs lines 60-64. -/
inductive ContextPage where
  | About
  | Settings
deriving DecidableEq, Repr

/-- `DialogPage` from src/src/app.rs lines 75-78. -/
inductive DialogPage where
  | Change (city : String)
deriving DecidableEq, Repr

/-- `Action` from src/src/app.rs lines 80-86. -/
inductive Action where
  | About
  | Settings
  | ChangeCity
  | Quit
deriving DecidableEq, Repr

/-- `Message` from src/src/app.rs lines 33-52. -/
inductive Message where
  | ChangeCity
  | Quit
  | SystemThemeModeChange
  | ToggleContextPage (page : ContextPage)
  | LaunchUrl (url : String)
  | Key (mods : Modifiers) (key : KeyCode)
  | Modifiers (mods : Modifiers)
  | Config (config : WeatherConfig)
  | Units (units : Units)
  | TimeFmt (timefmt : TimeFmt)
  | AppTheme (theme : AppTheme)
  | DialogComplete (city : String)
  | DialogCancel
  | DialogUpdate (page : DialogPage)
  | SetLocation (location : Location)
  | SetWeatherData (data : WeatherData)
  | Error (err : String)
deriving DecidableEq, Repr

/-- `MenuAction::message` for `Action`, src/src/app.rs lines 88-99. -/
def Action.message : Action → Message
  | .About => .ToggleContextPage .About
  | .Settings => .ToggleContextPage .Settings
  | .ChangeCity => .ChangeCity
  | .Quit => .Quit

/-- Modelled from the spec: a key binding
(`cosmic::widget::menu::key_bind::KeyBind`): a modifier set plus a key;
`matches` compares both against the pressed combination. -/
structure KeyBind where
  mods : Modifiers
  key : KeyCode
deriving DecidableEq, Repr

/-- Whether a key binding matches a pressed modifier set and key. -/
def KeyBind.matchesKey (kb : KeyBind) (mods : Modifiers) (key : KeyCode) : Bool :=
  kb.mods == mods && kb.key == key

/-- Effects requested by a transition: each is a `Command::perform`, a
persistence call, or the window-close command in src/src/app.rs. -/
inductive Effect where
  | ResolveLocation (city : String)
  | SaveConfig
  | SetThemeEffect (theme : AppTheme)
  | FetchWeather (lat lon : Rat)
  | OpenUrl (url : String)
  | CloseWindow
  | SetTitle
deriving DecidableEq, Repr

/-- The transition-relevant fields of the `App` struct, src/src/app.rs
lines 130-144 (presentation-only fields omitted, see the module comment);
`show_context` is `core.window.show_context`. -/
structure App where
  context_page : ContextPage
  show_context : Bool
  config : WeatherConfig
  weather_data : WeatherData
  modifiers : Modifiers
  dialog_pages : List DialogPage
  key_binds : List (KeyBind × Action)
deriving DecidableEq, Repr

/-- Result of processing one message: either the next state together with
the effects queued during the transition, or a process abort (a Rust
`expect` failure or an out-of-bounds index). -/
inductive Outcome where
  | ok (s : App) (effects : List Effect)
  | panic (msg : String)
deriving DecidableEq, Repr

/-- Reading of a digit string as a natural number; fails on any non-digit
character; the empty list reads as 0 (callers guard emptiness). -/
def digitsToNat : List Char → Option Nat :=
  List.foldlM (fun acc c => if c.isDigit then some (acc * 10 + (c.toNat - 48)) else none) 0

/-- Reading of an unsigned decimal character sequence (digits, optionally
split by one dot, at least one digit overall) as a numerator-denominator
pair; helper for `parseF64`. -/
def parseUnsignedChars (l : List Char) : Option (Nat × Nat) :=
  match l.splitOn '.' with
  | [intPart] =>
    if intPart.isEmpty then none
    else (digitsToNat intPart).map (fun n => (n, 1))
  | [intPart, fracPart] =>
    if intPart.isEmpty && fracPart.isEmpty then none
    else
      match digitsToNat intPart, digitsToNat fracPart with
      | some n, some f => some (n * 10 ^ fracPart.length + f, 10 ^ fracPart.length)
      | _, _ => none
  | _ => none

/-- Modelled from the spec and the Rust standard library:
`str::parse::<f64>` restricted to plain decimal notation (optional sign,
integer digits, optional fractional digits), returning the exact rational
value; any other string fails to parse, as does the empty string. The
claims depend only on success or failure of the parse and on which string
the parsed value came from. -/
def parseF64 (s : String) : Option Rat :=
  match s.data with
  | [] => none
  | c :: rest =>
    if c = '-' then (parseUnsignedChars rest).map (fun p => mkRat (-(p.1 : Int)) p.2)
    else if c = '+' then (parseUnsignedChars rest).map (fun p => mkRat p.1 p.2)
    else (parseUnsignedChars (c :: rest)).map (fun p => mkRat p.1 p.2)

/-- `App::save_config`, src/src/app.rs lines 466-474: writes the current
config through the config handler (write failure is logged, never
surfaced); represented as the persist-config effect. -/
def save_config : Effect := Effect.SaveConfig

/-- `App::save_theme`, src/src/app.rs lines 476-478: pushes the current
theme selection to the theme system; represented as the persist-theme
effect. -/
def save_theme (config : WeatherConfig) : Effect := Effect.SetThemeEffect config.app_theme

/-- `App::update_weather_data`, src/src/app.rs lines 480-503: when both
latitude and longitude strings are present they are parsed with
`.expect(\x22Error parsing string to f64\x22)` — a failed parse aborts the
process, modelled by `none`; on success exactly one fetch-weather command
is created from the parsed coordinates; when either string is absent no
command is created. -/
def update_weather_data (config : WeatherConfig) : Option (List Effect) :=
  match config.latitude, config.longitude with
  | some lat, some lon =>
    match parseF64 lat, parseF64 lon with
    | some la, some lo => some [Effect.FetchWeather la lo]
    | _, _ => none
  | _, _ => some []

/-- Result-mapping closure shared by `App::init` (lines 201-211) and the
`Message::DialogComplete` arm (lines 390-400): a successful resolution
with at least one candidate becomes `SetLocation` of the first candidate,
a successful resolution with zero candidates becomes
`Error(\x22Could not get location data.\x22)`, and a transport failure
becomes `Error(err.to_string())`. -/
def locationResultToMessage : Except String (List Location) → Message
  | .ok (loc :: _) => .SetLocation loc
  | .ok [] => .Error "Could not get location data."
  | .error err => .Error err

/-- Result-mapping closure inside `App::update_weather_data`, src/src/app.rs
lines 490-500: a successful fetch carrying data becomes `SetWeatherData`,
a successful fetch carrying no data becomes
`Error(\x22Could not get weather data.\x22)`, and a transport failure becomes
`Error(err.to_string())`. -/
def weatherResultToMessage : Except String (Option WeatherData) → Message
  | .ok (some data) => .SetWeatherData data
  | .ok none => .Error "Could not get weather data."
  | .error err => .Error err

/-- First matching key binding, mirroring the lookup loop in the
`Message::Key` arm, src/src/app.rs lines 359-365. -/
def findAction (binds : List (KeyBind × Action)) (mods : Modifiers) (key : KeyCode) :
    Option Action :=
  (binds.find? (fun e => e.1.matchesKey mods key)).map Prod.snd

/-- `App::update` on every message other than `Message::Key`,
src/src/app.rs lines 333-431; the `Key` arm is handled by `update` below
(the source dispatches it by a recursive call on the bound action's
message, which is never itself a `Key`). Each arm lists its queued
effects in the order the source pushes the corresponding commands. -/
def update1 (s : App) (m : Message) : Outcome :=
  match m with
  | .ChangeCity =>
    .ok { s with dialog_pages := s.dialog_pages ++ [DialogPage.Change ""] } []
  | .Quit => .ok s [Effect.CloseWindow]
  | .ToggleContextPage page =>
    if s.context_page = page then
      .ok { s with show_context := !s.show_context } []
    else
      .ok { s with context_page := page, show_context := true } []
  | .LaunchUrl url => .ok s [Effect.OpenUrl url]
  | .Key _ _ => .ok s []
  | .Modifiers mods => .ok { s with modifiers := mods } []
  | .Config config =>
    if config ≠ s.config then .ok { s with config := config } [] else .ok s []
  | .Units units =>
    .ok { s with config := { s.config with units := units } } [save_config]
  | .TimeFmt timefmt =>
    .ok { s with config := { s.config with timefmt := timefmt } } [save_config]
  | .AppTheme theme =>
    let config := { s.config with app_theme := theme }
    .ok { s with config := config } [save_config, save_theme config]
  | .DialogComplete city =>
    .ok { s with dialog_pages := s.dialog_pages.tail }
      [Effect.ResolveLocation city, save_config]
  | .DialogCancel => .ok { s with dialog_pages := s.dialog_pages.tail } []
  | .DialogUpdate page =>
    match s.dialog_pages with
    | [] => .panic "index out of bounds"
    | _ :: rest => .ok { s with dialog_pages := page :: rest } []
  | .SetLocation location =>
    let config := { s.config with
      location := some location.display_name,
      latitude := some location.lat,
      longitude := some location.lon }
    match update_weather_data config with
    | some fx => .ok { s with config := config } ([save_config] ++ fx)
    | none => .panic "Error parsing string to f64"
  | .SetWeatherData data => .ok { s with weather_data := data } []
  | .Error _ => .ok s []
  | .SystemThemeModeChange => .ok s [save_theme s.config, save_config]

/-- Message a received message resolves to before the main dispatch: a
`Key` message with a matching binding is replaced by the bound action's
message (the source makes the recursive call
`self.update(action.message())`, src/src/app.rs line 362, and
`Action.message` never yields another `Key`); every other message, and a
`Key` with no matching binding, resolves to itself. -/
def resolveKey (s : App) (m : Message) : Message :=
  match m with
  | .Key mods key =>
    match findAction s.key_binds mods key with
    | some action => action.message
    | none => m
  | _ => m

/-- `App::update`, src/src/app.rs lines 333-431: key dispatch followed by
the main match. -/
def update (s : App) (m : Message) : Outcome :=
  update1 s (resolveKey s m)

/-- Modelled from the spec: the fixed key-binding table built by
`key_binds()` in `src/app/key_bind.rs` (module of this repository not
present under src/); spec section 6: a static table mapping modifier+key
combinations to exactly four actions (open About, open Settings, change
city, quit). The concrete combinations are unknown and immaterial to the
claims; representative ones are used. -/
def key_binds : List (KeyBind × Action) :=
  [(⟨1, "i"⟩, Action.About), (⟨1, ","⟩, Action.Settings),
   (⟨1, "l"⟩, Action.ChangeCity), (⟨1, "q"⟩, Action.Quit)]

/-- `Flags` from src/src/app.rs lines 54-58; the config handler is only
used inside `save_config` (whose write outcome is fire-and-forget), so it
is reduced to its presence. -/
structure Flags where
  config_handler : Bool
  config : WeatherConfig
deriving DecidableEq, Repr

/-- `App::init`, src/src/app.rs lines 161-224: builds the initial state
(Settings context page, hidden context drawer, empty dialog queue, default
weather data, config from flags), queues the fallback Denver resolution
when no location name is stored, then the title command and
`update_weather_data` on the loaded config (which aborts on an unparseable
stored coordinate, like every call to it). -/
def init (flags : Flags) : Outcome :=
  let app : App := {
    context_page := .Settings,
    show_context := false,
    config := flags.config,
    weather_data := ⟨0⟩,
    modifiers := 0,
    dialog_pages := [],
    key_binds := key_binds }
  let fallback := if flags.config.location = none
    then [Effect.ResolveLocation "Denver"] else []
  match update_weather_data flags.config with
  | some fx => .ok app (fallback ++ [Effect.SetTitle] ++ fx)
  | none => .panic "Error parsing string to f64"

/-- Whether an outcome closes the application window. -/
def isCloseB : Outcome → Bool
  | .ok _ fx => fx.contains Effect.CloseWindow
  | .panic _ => false

/-- Whether an outcome aborts the process. -/
def isPanicB : Outcome → Bool
  | .ok _ _ => false
  | .panic _ => true

/-- Whether a (key-resolved) message makes `update1` abort: `SetLocation`
with an unparseable coordinate string, or `DialogUpdate` with an empty
dialog queue. -/
def panicCauseB (s : App) (m : Message) : Bool :=
  match m with
  | .SetLocation location =>
    (parseF64 location.lat).isNone || (parseF64 location.lon).isNone
  | .DialogUpdate _ => s.dialog_pages.isEmpty
  | _ => false

/-- Whether a message is the explicit Quit message. -/
def isQuitB : Message → Bool
  | .Quit => true
  | _ => false

/-- State reached by one transition; a panicking transition has no next
state, and this composition helper keeps the prior state in that case (it
is only ever applied along non-panicking runs). -/
def stepState (s : App) (m : Message) : App :=
  match update s m with
  | .ok s2 _ => s2
  | .panic _ => s

/-- Number of fetch-weather effects in an effect list. -/
def countFetch (fx : List Effect) : Nat :=
  fx.countP (fun e => match e with | .FetchWeather _ _ => true | _ => false)

/-- Effect list queued by `init`; empty when `init` aborts. -/
def initEffects (flags : Flags) : List Effect :=
  match init flags with
  | .ok _ fx => fx
  | .panic _ => []

/-- Fixture: a settings record with a stored location and parseable
coordinate strings. -/
def cfg0 : WeatherConfig :=
  ⟨.Fahrenheit, .TwelveHr, .System, some "Denver, CO", some "39.74", some "-104.99"⟩

/-- Fixture: a state with the Settings context page selected, hidden
context drawer, empty dialog queue. -/
def app0 : App := ⟨.Settings, false, cfg0, ⟨0⟩, 0, [], key_binds⟩

/-- Fixture: a state showing the About context page. -/
def appVisAbout : App := ⟨.About, true, cfg0, ⟨0⟩, 0, [], key_binds⟩

/-- Fixture: a state whose dialog queue holds one change-city dialog. -/
def appDialog : App := ⟨.Settings, false, cfg0, ⟨0⟩, 0, [DialogPage.Change "Paris"], key_binds⟩

/-- Fixture: a settings record whose stored coordinate strings do not
parse as f64. -/
def cfgBad : WeatherConfig :=
  ⟨.Fahrenheit, .TwelveHr, .System, some "Somewhere", some "north", some "west"⟩

/-- Helper: the non-Key dispatch closes the window exactly on the Quit
message. -/
theorem update1_close (s : App) (m : Message) :
    isCloseB (update1 s m) = isQuitB m := by
  cases m <;> try rfl
  case ToggleContextPage page =>
    by_cases h : s.context_page = page <;> simp [update1, h, isCloseB, isQuitB]
  case Config config =>
    by_cases h : config = s.config <;> simp [update1, h, isCloseB, isQuitB]
  case DialogUpdate page =>
    cases h : s.dialog_pages <;> simp [update1, h, isCloseB, isQuitB]
  case SetLocation location =>
    simp only [update1, update_weather_data]
    cases parseF64 location.lat <;> cases parseF64 location.lon <;> rfl

/-- Helper: the non-Key dispatch aborts exactly on SetLocation with an
unparseable coordinate string or DialogUpdate with an empty dialog
queue. -/
theorem update1_panic (s : App) (m : Message) :
    isPanicB (update1 s m) = panicCauseB s m := by
  cases m <;> try rfl
  case ToggleContextPage page =>
    by_cases h : s.context_page = page <;> simp [update1, h, isPanicB, panicCauseB]
  case Config config =>
    by_cases h : config = s.config <;> simp [update1, h, isPanicB, panicCauseB]
  case DialogUpdate page =>
    cases h : s.dialog_pages <;>
      simp [update1, h, isPanicB, panicCauseB, List.isEmpty]
  case SetLocation location =>
    simp only [update1, update_weather_data, panicCauseB]
    cases parseF64 location.lat <;> cases parseF64 location.lon <;> rfl

/-- C1 (amended): processing a message closes the application exactly when
the message, after key-binding resolution, is the explicit Quit message;
and processing a message aborts the process exactly when, after
key-binding resolution, it is SetLocation with a coordinate string that
fails to parse as f64 or DialogTextChanged with an empty dialog queue —
in every other case, in particular on every Error message, no error
condition terminates the process. -/
theorem update_close_and_panic_characterization (s : App) (m : Message) :
    isCloseB (update s m) = isQuitB (resolveKey s m)
  ∧ isPanicB (update s m) = panicCauseB s (resolveKey s m) :=
  ⟨update1_close s (resolveKey s m), update1_panic s (resolveKey s m)⟩

/-- C1 counterexample: handling SetLocation can abort the program — a
candidate whose latitude string does not parse as f64 makes the triggered
weather fetch panic through its `expect`. -/
theorem update_aborts_on_unparseable_set_location :
    update app0 (Message.SetLocation ⟨"Nowhere", "abc", "1.0"⟩) =
      Outcome.panic "Error parsing string to f64" := by decide

/-- C2: with an empty dialog queue, DialogComplete and DialogCancel leave
the state unchanged and nothing fails; DialogCancel queues no effect
(DialogComplete still queues its resolve-location and persist-config
effects, which do not touch the state). -/
theorem dialog_complete_cancel_on_empty_queue_noop (s : App) (t : String)
    (h : s.dialog_pages = []) :
    update s (Message.DialogComplete t) =
      Outcome.ok s [Effect.ResolveLocation t, Effect.SaveConfig]
  ∧ update s Message.DialogCancel = Outcome.ok s [] := by
  obtain ⟨cp, sc, cfg, wd, mods, dq, kb⟩ := s
  simp only at h
  subst h
  exact ⟨rfl, rfl⟩

/-- C2 witness: the empty-queue no-op at a concrete state. -/
theorem dialog_complete_cancel_on_empty_queue_noop_witness :
    update app0 (Message.DialogComplete "Paris") =
      Outcome.ok app0 [Effect.ResolveLocation "Paris", Effect.SaveConfig]
  ∧ update app0 Message.DialogCancel = Outcome.ok app0 [] :=
  dialog_complete_cancel_on_empty_queue_noop app0 "Paris" rfl

/-- C3 counterexample: an absent weather result and a transport failure do
not carry one identical user-visible text — the transport failure carries
the transport error's own description. -/
theorem weather_absent_and_transport_error_texts_differ :
    weatherResultToMessage (Except.error "connection timed out") ≠
      weatherResultToMessage (Except.ok none) := by decide

/-- C3 (amended): every weather-fetch outcome that is not a successful
snapshot maps to an Error follow-up message — the same non-fatal
user-visible channel in both cases — but the texts differ: the absent
case carries the fixed text, a transport failure carries its own
description. -/
theorem weather_non_success_maps_to_error_message :
    weatherResultToMessage (Except.ok none) =
      Message.Error "Could not get weather data."
  ∧ ∀ e : String, weatherResultToMessage (Except.error e) = Message.Error e :=
  ⟨rfl, fun _ => rfl⟩

/-- C4 counterexample: from a state whose stored Settings coordinate
strings are parseable, SetLocation with a candidate whose longitude
string does not parse aborts the process instead of queueing the persist
and fetch effects. -/
theorem set_location_panics_despite_parseable_settings :
    update app0 (Message.SetLocation ⟨"Nowhere", "1.0", "west"⟩) =
      Outcome.panic "Error parsing string to f64" := by decide

/-- C4 (amended): for every state, processing SetLocation(loc) whose
candidate coordinate strings parse as f64 — these become the Settings
read by the fetch — sets Settings.location_name, latitude and longitude
to loc's fields and queues exactly one persist-config effect and one
fetch-weather effect built from the just-updated coordinates loc.lat and
loc.lon, not the previous ones. -/
theorem set_location_updates_settings_and_fetches (s : App) (loc : Location)
    (la lo : Rat) (hla : parseF64 loc.lat = some la)
    (hlo : parseF64 loc.lon = some lo) :
    update s (Message.SetLocation loc) =
      Outcome.ok
        { s with config := { s.config with
            location := some loc.display_name,
            latitude := some loc.lat,
            longitude := some loc.lon } }
        [Effect.SaveConfig, Effect.FetchWeather la lo] := by
  simp [update, resolveKey, update1, update_weather_data, hla, hlo, save_config]

/-- C4 witness: the amended SetLocation behaviour at a concrete state and
candidate. -/
theorem set_location_updates_settings_and_fetches_witness :
    update app0 (Message.SetLocation ⟨"Denver, CO", "39.74", "-104.99"⟩) =
      Outcome.ok
        { app0 with config := { app0.config with
            location := some "Denver, CO",
            latitude := some "39.74",
            longitude := some "-104.99" } }
        [Effect.SaveConfig,
         Effect.FetchWeather (mkRat 3974 100) (mkRat (-10499) 100)] :=
  set_location_updates_settings_and_fetches app0
    ⟨"Denver, CO", "39.74", "-104.99"⟩ (mkRat 3974 100) (mkRat (-10499) 100)
    (by decide) (by decide)

/-- C5: with DialogQueue = [Change(text)], DialogConfirm(text) leaves the
queue empty and queues exactly a resolve-location(text) effect and a
persist-config effect, and no other effect. -/
theorem dialog_confirm_pops_and_resolves (s : App) (t : String)
    (h : s.dialog_pages = [DialogPage.Change t]) :
    update s (Message.DialogComplete t) =
      Outcome.ok { s with dialog_pages := [] }
        [Effect.ResolveLocation t, Effect.SaveConfig] := by
  simp [update, resolveKey, update1, h, save_config]

/-- C5 witness: the confirm scenario at a concrete state with queue
[Change("Paris")]. -/
theorem dialog_confirm_pops_and_resolves_witness :
    update appDialog (Message.DialogComplete "Paris") =
      Outcome.ok { appDialog with dialog_pages := [] }
        [Effect.ResolveLocation "Paris", Effect.SaveConfig] :=
  dialog_confirm_pops_and_resolves appDialog "Paris" rfl

/-- C6 counterexample: from a state showing the About panel, toggling the
Settings page twice does not return visibility to its original value —
the panel ends hidden. -/
theorem toggle_twice_from_other_visible_panel_changes_visibility :
    (stepState (stepState appVisAbout (Message.ToggleContextPage ContextPage.Settings))
        (Message.ToggleContextPage ContextPage.Settings)).show_context ≠
      appVisAbout.show_context := by decide

/-- C6 (amended): toggling page P twice with no other message in between
returns visibility to its original value with selection P provided P was
already selected or the panel was hidden; when a different panel was
visible, the double toggle instead leaves the panel hidden with selection
P; toggling P then Q ≠ P always leaves the panel visible with selection
Q. -/
theorem toggle_context_page_pair_laws (s : App) (p q : ContextPage) :
    (s.context_page = p ∨ s.show_context = false →
      (stepState (stepState s (Message.ToggleContextPage p))
          (Message.ToggleContextPage p)).show_context = s.show_context
      ∧ (stepState (stepState s (Message.ToggleContextPage p))
          (Message.ToggleContextPage p)).context_page = p)
  ∧ (s.context_page ≠ p ∧ s.show_context = true →
      (stepState (stepState s (Message.ToggleContextPage p))
          (Message.ToggleContextPage p)).show_context = false
      ∧ (stepState (stepState s (Message.ToggleContextPage p))
          (Message.ToggleContextPage p)).context_page = p)
  ∧ (q ≠ p →
      (stepState (stepState s (Message.ToggleContextPage p))
          (Message.ToggleContextPage q)).show_context = true
      ∧ (stepState (stepState s (Message.ToggleContextPage p))
          (Message.ToggleContextPage q)).context_page = q) := by
  by_cases hc : s.context_page = p
  · refine ⟨fun _ => ?_, fun h => absurd hc h.1, fun hq => ?_⟩
    · simp [stepState, update, resolveKey, update1, hc]
    · simp [stepState, update, resolveKey, update1, hc, Ne.symm hq]
  · refine ⟨fun h => ?_, fun h => ?_, fun hq => ?_⟩
    · rcases h with h | h
      · exact absurd h hc
      · simp [stepState, update, resolveKey, update1, hc, h]
    · simp [stepState, update, resolveKey, update1, hc]
    · simp [stepState, update, resolveKey, update1, hc, Ne.symm hq]

/-- C6 witness: the three toggle laws at concrete states. -/
theorem toggle_context_page_pair_laws_witness :
    (stepState (stepState app0 (Message.ToggleContextPage ContextPage.Settings))
        (Message.ToggleContextPage ContextPage.Settings)).show_context = app0.show_context
  ∧ (stepState (stepState appVisAbout (Message.ToggleContextPage ContextPage.Settings))
        (Message.ToggleContextPage ContextPage.Settings)).show_context = false
  ∧ (stepState (stepState app0 (Message.ToggleContextPage ContextPage.About))
        (Message.ToggleContextPage ContextPage.Settings)).context_page =
      ContextPage.Settings :=
  ⟨((toggle_context_page_pair_laws app0 ContextPage.Settings ContextPage.About).1
      (Or.inl rfl)).1,
   ((toggle_context_page_pair_laws appVisAbout ContextPage.Settings
      ContextPage.About).2.1 ⟨by decide, rfl⟩).1,
   ((toggle_context_page_pair_laws app0 ContextPage.About
      ContextPage.Settings).2.2 (by decide)).2⟩

/-- C7: SetUnits, SetTimeFormat and SetTheme update the corresponding
Settings field and queue exactly one persist-config effect; SetTheme
additionally queues exactly one persist-theme effect and the others queue
none (the effect lists are given exactly). -/
theorem settings_messages_persist_config (s : App) (u : Units) (t : TimeFmt)
    (th : AppTheme) :
    update s (Message.Units u) =
      Outcome.ok { s with config := { s.config with units := u } }
        [Effect.SaveConfig]
  ∧ update s (Message.TimeFmt t) =
      Outcome.ok { s with config := { s.config with timefmt := t } }
        [Effect.SaveConfig]
  ∧ update s (Message.AppTheme th) =
      Outcome.ok { s with config := { s.config with app_theme := th } }
        [Effect.SaveConfig, Effect.SetThemeEffect th] :=
  ⟨rfl, rfl, rfl⟩

/-- C8: a location resolution returning a successful but empty candidate
list maps to the sole follow-up message Error with the fixed text
"Could not get location data.", and processing an Error message leaves
the whole state — in particular the Settings — unchanged with no effects
(no SetLocation is produced). -/
theorem empty_candidate_list_fails_and_preserves_settings :
    locationResultToMessage (Except.ok []) =
      Message.Error "Could not get location data."
  ∧ ∀ (s : App) (e : String), update s (Message.Error e) = Outcome.ok s [] :=
  ⟨rfl, fun _ _ => rfl⟩

/-- C9: with a non-empty dialog queue, DialogTextChanged(p) replaces the
front element, keeps the rest of the queue and every other state field,
and queues no effects; non-emptiness is a genuine precondition — on an
empty queue the handler's unconditional access to position 0 aborts. -/
theorem dialog_update_replaces_front_only (s : App) (p : DialogPage) :
    (∀ hd rest, s.dialog_pages = hd :: rest →
      update s (Message.DialogUpdate p) =
        Outcome.ok { s with dialog_pages := p :: rest } [])
  ∧ (s.dialog_pages = [] →
      update s (Message.DialogUpdate p) = Outcome.panic "index out of bounds") := by
  constructor
  · intro hd rest h
    simp [update, resolveKey, update1, h]
  · intro h
    simp [update, resolveKey, update1, h]

/-- C9 witness: front replacement at a concrete one-element queue and the
abort at a concrete empty queue. -/
theorem dialog_update_replaces_front_only_witness :
    update appDialog (Message.DialogUpdate (DialogPage.Change "Lyon")) =
      Outcome.ok { appDialog with dialog_pages := [DialogPage.Change "Lyon"] } []
  ∧ update app0 (Message.DialogUpdate (DialogPage.Change "Lyon")) =
      Outcome.panic "index out of bounds" :=
  ⟨(dialog_update_replaces_front_only appDialog (DialogPage.Change "Lyon")).1
      (DialogPage.Change "Paris") [] rfl,
   (dialog_update_replaces_front_only app0 (DialogPage.Change "Lyon")).2 rfl⟩

/-- C10 counterexample: at startup with both coordinate strings present
but unparseable, no fetch-weather effect is queued — init aborts through
the `expect` in the weather fetch. -/
theorem init_panics_on_unparseable_stored_coordinates :
    init ⟨true, cfgBad⟩ = Outcome.panic "Error parsing string to f64" := by decide

/-- C10 (amended): at startup, whenever the loaded Settings contain both a
latitude and a longitude string and both parse as f64, exactly one
fetch-weather effect is queued using those persisted coordinates,
independently of whether the fallback resolve-location effect is also
queued; if either coordinate is absent, no fetch-weather effect is queued
at startup. -/
theorem init_fetch_weather_characterization (flags : Flags) :
    (∀ slat slon la lo, flags.config.latitude = some slat →
        flags.config.longitude = some slon →
        parseF64 slat = some la → parseF64 slon = some lo →
        initEffects flags =
          (if flags.config.location = none
            then [Effect.ResolveLocation "Denver"] else [])
          ++ [Effect.SetTitle, Effect.FetchWeather la lo])
  ∧ ((flags.config.latitude = none ∨ flags.config.longitude = none) →
      countFetch (initEffects flags) = 0) := by
  constructor
  · intro slat slon la lo h1 h2 h3 h4
    simp [initEffects, init, update_weather_data, h1, h2, h3, h4]
  · intro h
    rcases h with h | h
    · by_cases hl : flags.config.location = none <;>
        simp [initEffects, init, update_weather_data, h, hl, countFetch]
    · cases hlat : flags.config.latitude <;>
        by_cases hl : flags.config.location = none <;>
          simp [initEffects, init, update_weather_data, h, hlat, hl, countFetch]

/-- C10 witness: exactly one fetch-weather effect from parseable persisted
coordinates, and none when the latitude is absent. -/
theorem init_fetch_weather_characterization_witness :
    initEffects ⟨true, cfg0⟩ =
      [Effect.SetTitle, Effect.FetchWeather (mkRat 3974 100) (mkRat (-10499) 100)]
  ∧ countFetch (initEffects ⟨true,
      ⟨.Fahrenheit, .TwelveHr, .System, none, none, some "-104.99"⟩⟩) = 0 := by
  constructor
  · have h := (init_fetch_weather_characterization ⟨true, cfg0⟩).1
      "39.74" "-104.99" (mkRat 3974 100) (mkRat (-10499) 100)
      rfl rfl (by decide) (by decide)
    simpa using h
  · exact (init_fetch_weather_characterization ⟨true,
      ⟨.Fahrenheit, .TwelveHr, .System, none, none, some "-104.99"⟩⟩).2
      (Or.inl rfl)

end Forecast
